import Mathlib

/-!
# Finite differencing: verification of the stencil evaluator and convergence estimator

Shallow embedding of the finite-difference routines of
`solutions/01-finite-differencing.ipynb` over the real numbers, together
with theorems settling the specification's claims about them.

Python floats are modelled by `ℝ`.  The three differencing routines are
translated directly from the notebook's code cells, keeping the source's
intermediate `let` bindings and evaluation order.  Two further embeddings
make exceptional behaviour observable:

* `fdiv` is division that reports a zero denominator as an explicit
  `Except.error` (Python raises `ZeroDivisionError` / produces an IEEE
  infinity there; either way the outcome is exceptional, never a silently
  substituted placeholder), and `*_differencingE` are the routines with
  their divisions routed through `fdiv`;
* `*_differencingF` are the routines applied to a fallible function
  `ℝ → Except String ℝ`, with the source's evaluation order of the stencil
  points preserved, so that propagation of the function's own failures can
  be stated.

The fourth-order central stencils and the self-convergence rate are posed
in the notebook only as extension exercises (markdown, no code), so they
are modelled from the spec's formulas and marked as such.
-/

namespace FiniteDifferencing

/-- Backward differencing of `f` at `x_i` with grid spacing `dx`
(notebook code cell: `backward_differencing`). -/
def backward_differencing {α : Type*} [LinearOrderedField α] (f : α → α) (x_i dx : α) : α :=
  let f_i := f x_i
  let f_i_minus_1 := f (x_i - dx)
  (f_i - f_i_minus_1) / dx

/-- Forward differencing of `f` at `x_i` with grid spacing `dx`
(notebook code cell: `forward_differencing`). -/
def forward_differencing {α : Type*} [LinearOrderedField α] (f : α → α) (x_i dx : α) : α :=
  let f_i := f x_i
  let f_i_plus_1 := f (x_i + dx)
  (f_i_plus_1 - f_i) / dx

/-- Second order central differencing of `f` at `x_i` with grid spacing `dx`,
returning the pair (first derivative estimate, second derivative estimate)
(notebook code cell: `central_differencing`). -/
def central_differencing {α : Type*} [LinearOrderedField α] (f : α → α) (x_i dx : α) : α × α :=
  let f_i := f x_i
  let f_i_minus_1 := f (x_i - dx)
  let f_i_plus_1 := f (x_i + dx)
  let first_derivative := (f_i_plus_1 - f_i_minus_1) / (2 * dx)
  let second_derivative := (f_i_minus_1 - 2 * f_i + f_i_plus_1) / (dx ^ 2)
  (first_derivative, second_derivative)

/-- Division with an explicit division-by-zero outcome: the Python source
divides with no guard on the denominator, so a zero denominator produces an
exceptional result (`ZeroDivisionError`, or an IEEE infinity under numpy)
rather than any placeholder value.  `fdiv` makes that outcome observable. -/
def fdiv {α : Type*} [LinearOrderedField α] (a b : α) : Except String α :=
  if b = 0 then Except.error "division by zero" else Except.ok (a / b)

/-- `backward_differencing` with its division routed through `fdiv`, so the
unguarded division by `dx` is observable. -/
def backward_differencingE {α : Type*} [LinearOrderedField α] (f : α → α) (x_i dx : α) : Except String α :=
  let f_i := f x_i
  let f_i_minus_1 := f (x_i - dx)
  fdiv (f_i - f_i_minus_1) dx

/-- `forward_differencing` with its division routed through `fdiv`. -/
def forward_differencingE {α : Type*} [LinearOrderedField α] (f : α → α) (x_i dx : α) : Except String α :=
  let f_i := f x_i
  let f_i_plus_1 := f (x_i + dx)
  fdiv (f_i_plus_1 - f_i) dx

/-- `central_differencing` with its divisions routed through `fdiv`. -/
def central_differencingE {α : Type*} [LinearOrderedField α] (f : α → α) (x_i dx : α) : Except String (α × α) := do
  let f_i := f x_i
  let f_i_minus_1 := f (x_i - dx)
  let f_i_plus_1 := f (x_i + dx)
  let first_derivative ← fdiv (f_i_plus_1 - f_i_minus_1) (2 * dx)
  let second_derivative ← fdiv (f_i_minus_1 - 2 * f_i + f_i_plus_1) (dx ^ 2)
  return (first_derivative, second_derivative)

/-- `backward_differencing` applied to a fallible function, preserving the
source's evaluation order (`f(x_i)` first, then `f(x_i - dx)`); any failure
of `f` aborts the computation with that failure. -/
def backward_differencingF {α : Type*} [LinearOrderedField α] (f : α → Except String α) (x_i dx : α) :
    Except String α := do
  let f_i ← f x_i
  let f_i_minus_1 ← f (x_i - dx)
  return (f_i - f_i_minus_1) / dx

/-- `forward_differencing` applied to a fallible function, preserving the
source's evaluation order (`f(x_i)` first, then `f(x_i + dx)`). -/
def forward_differencingF {α : Type*} [LinearOrderedField α] (f : α → Except String α) (x_i dx : α) :
    Except String α := do
  let f_i ← f x_i
  let f_i_plus_1 ← f (x_i + dx)
  return (f_i_plus_1 - f_i) / dx

/-- `central_differencing` applied to a fallible function, preserving the
source's evaluation order (`f(x_i)`, then `f(x_i - dx)`, then `f(x_i + dx)`). -/
def central_differencingF {α : Type*} [LinearOrderedField α] (f : α → Except String α) (x_i dx : α) :
    Except String (α × α) := do
  let f_i ← f x_i
  let f_i_minus_1 ← f (x_i - dx)
  let f_i_plus_1 ← f (x_i + dx)
  return ((f_i_plus_1 - f_i_minus_1) / (2 * dx),
          (f_i_minus_1 - 2 * f_i + f_i_plus_1) / (dx ^ 2))

/-- Modelled from the spec: the fourth-order central differencing stencils.
The notebook poses them only as an extension exercise (markdown, no code),
so the definition follows the spec's formulas:
first derivative `(-f(x+2dx) + 8f(x+dx) - 8f(x-dx) + f(x-2dx)) / (12*dx)`,
second derivative
`(-f(x-2dx) + 16f(x-dx) - 30f(x) + 16f(x+dx) - f(x+2dx)) / (12*dx^2)`. -/
def central_differencing_4th {α : Type*} [LinearOrderedField α] (f : α → α) (x_i dx : α) : α × α :=
  let first_derivative :=
    (-f (x_i + 2 * dx) + 8 * f (x_i + dx) - 8 * f (x_i - dx) + f (x_i - 2 * dx))
      / (12 * dx)
  let second_derivative :=
    (-f (x_i - 2 * dx) + 16 * f (x_i - dx) - 30 * f x_i + 16 * f (x_i + dx)
        - f (x_i + 2 * dx)) / (12 * dx ^ 2)
  (first_derivative, second_derivative)

/-- Modelled from the spec: the self-convergence mode of the convergence
estimator.  The notebook poses it only as an extension exercise (markdown,
no code), so the definition follows the spec's formula
`p = log2( | (F(4Δx) − F(2Δx)) / (F(2Δx) − F(Δx)) | )`.  The arguments are
the three approximations `F(4Δx)`, `F(2Δx)`, `F(Δx)`. -/
noncomputable def self_convergence_rate (F_4dx F_2dx F_dx : ℝ) : ℝ :=
  Real.logb 2 |(F_4dx - F_2dx) / (F_2dx - F_dx)|

/-- C1: for every real-valued function `f`, every real `x`, and every grid
spacing `dx > 0`, `central_differencing f x dx` returns the pair with first
component `(f(x+dx) - f(x-dx)) / (2*dx)` and second component
`(f(x-dx) - 2*f(x) + f(x+dx)) / dx^2`. -/
theorem central_differencing_formula (f : ℝ → ℝ) (x dx : ℝ) (h : 0 < dx) :
    central_differencing f x dx =
      ((f (x + dx) - f (x - dx)) / (2 * dx),
       (f (x - dx) - 2 * f x + f (x + dx)) / dx ^ 2) := rfl

/-- Witness for C1: at `f t = t^2`, `x = 1`, `dx = 1` the hypothesis holds and
the formula evaluates to `(2, 2)`. -/
theorem central_differencing_formula_witness :
    (0:ℝ) < 1 ∧ central_differencing (fun t : ℝ => t ^ 2) 1 1 = (2, 2) := by
  refine ⟨by norm_num, ?_⟩
  have h := central_differencing_formula (fun t : ℝ => t ^ 2) 1 1 (by norm_num)
  rw [h]
  norm_num

/-- C2: for every real-valued function `f`, every real `x`, and every grid
spacing `dx > 0`, `forward_differencing f x dx` returns exactly
`(f(x+dx) - f(x)) / dx`. -/
theorem forward_differencing_formula (f : ℝ → ℝ) (x dx : ℝ) (h : 0 < dx) :
    forward_differencing f x dx = (f (x + dx) - f x) / dx := rfl

/-- Witness for C2: at `f t = t^2`, `x = 1`, `dx = 1` the hypothesis holds and
the formula evaluates to `3`. -/
theorem forward_differencing_formula_witness :
    (0:ℝ) < 1 ∧ forward_differencing (fun t : ℝ => t ^ 2) 1 1 = 3 := by
  refine ⟨by norm_num, ?_⟩
  have h := forward_differencing_formula (fun t : ℝ => t ^ 2) 1 1 (by norm_num)
  rw [h]
  norm_num

/-- C3: for every real-valued function `f`, every real `x`, and every grid
spacing `dx > 0`, `backward_differencing f x dx` returns exactly
`(f(x) - f(x-dx)) / dx`. -/
theorem backward_differencing_formula (f : ℝ → ℝ) (x dx : ℝ) (h : 0 < dx) :
    backward_differencing f x dx = (f x - f (x - dx)) / dx := rfl

/-- Witness for C3: at `f t = t^2`, `x = 1`, `dx = 1` the hypothesis holds and
the formula evaluates to `1`. -/
theorem backward_differencing_formula_witness :
    (0:ℝ) < 1 ∧ backward_differencing (fun t : ℝ => t ^ 2) 1 1 = 1 := by
  refine ⟨by norm_num, ?_⟩
  have h := backward_differencing_formula (fun t : ℝ => t ^ 2) 1 1 (by norm_num)
  rw [h]
  norm_num

/-- C4: in self-convergence mode, given three approximations `F(4Δx)`,
`F(2Δx)`, `F(Δx)` with a non-zero denominator `F(2Δx) − F(Δx)`, the
convergence estimator returns
`p = log2(|(F(4Δx) − F(2Δx)) / (F(2Δx) − F(Δx))|)`. -/
theorem self_convergence_rate_formula (F_4dx F_2dx F_dx : ℝ)
    (h : F_2dx - F_dx ≠ 0) :
    self_convergence_rate F_4dx F_2dx F_dx =
      Real.logb 2 |(F_4dx - F_2dx) / (F_2dx - F_dx)| := rfl

/-- Witness for C4: at `F(4Δx) = 5`, `F(2Δx) = 3`, `F(Δx) = 2` the denominator
is `1 ≠ 0` and the rate is `log2 |(5-3)/(3-2)|`. -/
theorem self_convergence_rate_formula_witness :
    (3:ℝ) - 2 ≠ 0 ∧
      self_convergence_rate 5 3 2 = Real.logb 2 |(5 - 3) / ((3:ℝ) - 2)| :=
  ⟨by norm_num, self_convergence_rate_formula 5 3 2 (by norm_num)⟩

/-- C5: for every real-valued function `f`, every real `x`, and every grid
spacing `dx > 0`, the fourth-order central schemes return
`(-f(x+2dx) + 8f(x+dx) - 8f(x-dx) + f(x-2dx)) / (12*dx)` for the first
derivative and
`(-f(x-2dx) + 16f(x-dx) - 30f(x) + 16f(x+dx) - f(x+2dx)) / (12*dx^2)` for the
second derivative. -/
theorem central_differencing_4th_formula (f : ℝ → ℝ) (x dx : ℝ) (h : 0 < dx) :
    central_differencing_4th f x dx =
      ((-f (x + 2 * dx) + 8 * f (x + dx) - 8 * f (x - dx) + f (x - 2 * dx))
          / (12 * dx),
       (-f (x - 2 * dx) + 16 * f (x - dx) - 30 * f x + 16 * f (x + dx)
            - f (x + 2 * dx)) / (12 * dx ^ 2)) := rfl

/-- Witness for C5: at `f t = t`, `x = 0`, `dx = 1` the hypothesis holds and
the schemes evaluate to `(1, 0)`. -/
theorem central_differencing_4th_formula_witness :
    (0:ℝ) < 1 ∧ central_differencing_4th (fun t : ℝ => t) 0 1 = (1, 0) := by
  refine ⟨by norm_num, ?_⟩
  have h := central_differencing_4th_formula (fun t : ℝ => t) 0 1 (by norm_num)
  rw [h]
  norm_num

/-- Unfolding lemma for the `Except` monad: binding after an error keeps the
error. -/
theorem error_bind {ε β γ : Type} (e : ε) (g : β → Except ε γ) :
    (Except.error e >>= g) = Except.error e := rfl

/-- Unfolding lemma for the `Except` monad: binding after a success applies the
continuation. -/
theorem ok_bind {ε β γ : Type} (a : β) (g : β → Except ε γ) :
    (Except.ok a >>= g : Except ε γ) = g a := rfl

/-- C6: calling any stencil scheme with `dx = 0` is not guarded: the division
by `dx` (respectively `2*dx` and `dx^2`) is still performed, producing the
exceptional division-by-zero outcome rather than any silently substituted
placeholder value. -/
theorem dx_zero_unguarded (f : ℝ → ℝ) (x : ℝ) :
    backward_differencingE f x 0 = Except.error "division by zero" ∧
    forward_differencingE f x 0 = Except.error "division by zero" ∧
    central_differencingE f x 0 = Except.error "division by zero" := by
  refine ⟨?_, ?_, ?_⟩ <;>
    simp [backward_differencingE, forward_differencingE, central_differencingE,
      fdiv, error_bind, ok_bind]

/-- A concrete fallible function used to exercise failure propagation:
defined on the non-negative reals, it raises a domain error below zero. -/
noncomputable def fdom : ℝ → Except String ℝ :=
  fun t => if t < 0 then Except.error "domain error" else Except.ok t

/-- C7: for every stencil scheme, a failure raised by the supplied function at
a stencil point surfaces to the caller unchanged.  For each scheme: every
error it returns is literally an error `f` raised at one of that scheme's
stencil points (nothing is caught or rewritten), and whenever `f` fails at
some stencil point the scheme returns such an error (no recovery, no retry,
no result). -/
theorem failure_propagates (f : ℝ → Except String ℝ) (x dx : ℝ) :
    ((∀ e, backward_differencingF f x dx = Except.error e →
        f x = Except.error e ∨ f (x - dx) = Except.error e) ∧
      ((∃ e, f x = Except.error e ∨ f (x - dx) = Except.error e) →
        ∃ e, backward_differencingF f x dx = Except.error e ∧
          (f x = Except.error e ∨ f (x - dx) = Except.error e))) ∧
    ((∀ e, forward_differencingF f x dx = Except.error e →
        f x = Except.error e ∨ f (x + dx) = Except.error e) ∧
      ((∃ e, f x = Except.error e ∨ f (x + dx) = Except.error e) →
        ∃ e, forward_differencingF f x dx = Except.error e ∧
          (f x = Except.error e ∨ f (x + dx) = Except.error e))) ∧
    ((∀ e, central_differencingF f x dx = Except.error e →
        f x = Except.error e ∨ f (x - dx) = Except.error e ∨
          f (x + dx) = Except.error e) ∧
      ((∃ e, f x = Except.error e ∨ f (x - dx) = Except.error e ∨
          f (x + dx) = Except.error e) →
        ∃ e, central_differencingF f x dx = Except.error e ∧
          (f x = Except.error e ∨ f (x - dx) = Except.error e ∨
            f (x + dx) = Except.error e))) := by
  cases hx : f x <;> cases hm : f (x - dx) <;> cases hp : f (x + dx) <;>
    simp [backward_differencingF, forward_differencingF, central_differencingF,
      hx, hm, hp, error_bind, ok_bind]

/-- Witness for C7: `fdom` fails at the stencil point `0 - 1 = -1`, and
`backward_differencingF` surfaces an error `fdom` raised at a stencil point. -/
theorem failure_propagates_witness :
    ∃ e, backward_differencingF fdom 0 1 = Except.error e ∧
      (fdom 0 = Except.error e ∨ fdom (0 - 1) = Except.error e) :=
  (failure_propagates fdom 0 1).1.2
    ⟨"domain error", Or.inr (by norm_num [fdom])⟩

/-- C8: each stencil scheme is a deterministic pure function of its inputs:
invocations on identical inputs (in particular, on functions with identical
values everywhere) yield identical outputs, with no hidden state. -/
theorem schemes_deterministic (f g : ℝ → ℝ) (x dx : ℝ) (h : ∀ t, f t = g t) :
    backward_differencing f x dx = backward_differencing g x dx ∧
    forward_differencing f x dx = forward_differencing g x dx ∧
    central_differencing f x dx = central_differencing g x dx := by
  refine ⟨?_, ?_, ?_⟩ <;>
    simp [backward_differencing, forward_differencing, central_differencing, h]

/-- Witness for C8: `t + t` and `2 * t` take identical values, and all three
schemes agree on them at `x = 0`, `dx = 1`. -/
theorem schemes_deterministic_witness :
    (∀ t : ℝ, t + t = 2 * t) ∧
      (backward_differencing (fun t : ℝ => t + t) 0 1 =
          backward_differencing (fun t : ℝ => 2 * t) 0 1 ∧
        forward_differencing (fun t : ℝ => t + t) 0 1 =
          forward_differencing (fun t : ℝ => 2 * t) 0 1 ∧
        central_differencing (fun t : ℝ => t + t) 0 1 =
          central_differencing (fun t : ℝ => 2 * t) 0 1) :=
  ⟨fun t => by ring,
    schemes_deterministic (fun t : ℝ => t + t) (fun t : ℝ => 2 * t) 0 1
      (fun t => by ring)⟩

/-- C9: for every real-valued `f`, every real `x`, and every nonzero `dx`,
`central_differencing f x (-dx)` equals `central_differencing f x dx`: both
derivative estimates are invariant under negating the grid spacing. -/
theorem central_differencing_neg_dx (f : ℝ → ℝ) (x dx : ℝ) (h : dx ≠ 0) :
    central_differencing f x (-dx) = central_differencing f x dx := by
  unfold central_differencing
  have h1 : x - -dx = x + dx := by ring
  have h2 : x + -dx = x - dx := by ring
  rw [h1, h2]
  simp only [Prod.mk.injEq]
  constructor
  · rw [mul_neg, div_neg]
    ring
  · rw [neg_pow]
    ring_nf

/-- Witness for C9: at `f t = t^2`, `x = 0`, `dx = 1` the hypothesis holds and
the two invocations agree. -/
theorem central_differencing_neg_dx_witness :
    (1:ℝ) ≠ 0 ∧
      central_differencing (fun t : ℝ => t ^ 2) 0 (-1) =
        central_differencing (fun t : ℝ => t ^ 2) 0 1 :=
  ⟨by norm_num, central_differencing_neg_dx (fun t : ℝ => t ^ 2) 0 1 (by norm_num)⟩

/-- C10: for every real-valued `f`, every real `x`, and every nonzero `dx`,
`forward_differencing f x dx` equals `backward_differencing f (x + dx) dx`:
the forward difference at a point coincides with the backward difference at
the point shifted by one grid spacing. -/
theorem forward_eq_backward_shifted (f : ℝ → ℝ) (x dx : ℝ) (h : dx ≠ 0) :
    forward_differencing f x dx = backward_differencing f (x + dx) dx := by
  unfold forward_differencing backward_differencing
  rw [add_sub_cancel_right]

/-- Witness for C10: at `f t = t^2`, `x = 0`, `dx = 1` the hypothesis holds and
the forward difference at `0` equals the backward difference at `1`. -/
theorem forward_eq_backward_shifted_witness :
    (1:ℝ) ≠ 0 ∧
      forward_differencing (fun t : ℝ => t ^ 2) 0 1 =
        backward_differencing (fun t : ℝ => t ^ 2) (0 + 1) 1 :=
  ⟨by norm_num, forward_eq_backward_shifted (fun t : ℝ => t ^ 2) 0 1 (by norm_num)⟩

end FiniteDifferencing
